import Mathlib

/-!
Formal model of the Chucky SDK TypeScript client (chucky-sdk-typescript).

This file is a shallow embedding of the protocol core of the SDK:
the envelope data model and type guards (`src/types/messages.ts`),
the Session state machine (`src/client/Session.ts`: `send`, `stream`,
`handleMessage`, `waitForReady`, `waitForNextMessage`, `handleToolCall`,
`close`), the WebSocket transport's send/queue, reconnect backoff and
idempotent connect (`WebSocketTransport`), and `ChuckyClient.prompt`.

Conventions of the embedding:
- JavaScript promises are elided; the single-threaded event-loop steps of
  the source are modelled as pure state-transition functions.
- A thrown JS exception is modelled as `Except.error` carrying the
  exception's `message` string.
- Opaque JSON payloads (tool inputs, assistant bodies) are modelled as
  uninterpreted strings: the code never inspects them.
-/

/-- Connection status enum from `src/types/options.ts`. -/
inductive ConnectionStatus
  | disconnected
  | connecting
  | connected
  | reconnecting
  | error
deriving DecidableEq

/-- Session state enum from `src/types/results.ts` (`SessionState`). -/
inductive SessionState
  | idle
  | initializing
  | ready
  | processing
  | waiting_tool
  | completed
  | error
deriving DecidableEq

/-- The wire name of each session state, as interpolated into the
state-conflict error message of `Session.send`. -/
def SessionState.jsName : SessionState → String
  | .idle => "idle"
  | .initializing => "initializing"
  | .ready => "ready"
  | .processing => "processing"
  | .waiting_tool => "waiting_tool"
  | .completed => "completed"
  | .error => "error"

/-- Control message actions (`ControlAction` in `src/types/messages.ts`). -/
inductive ControlAction
  | ready
  | session_info
  | end_input
  | close
deriving DecidableEq

/-- Control payload (`ControlPayload`); the optional `data` record is
opaque to the queueing logic and modelled as an uninterpreted string. -/
structure ControlPayload where
  action : ControlAction
  data : Option String := none
deriving DecidableEq

/-- Error payload (`ErrorPayload` in `src/types/messages.ts`). -/
structure ErrorPayload where
  message : String
  code : Option String := none
deriving DecidableEq

/-- System message subtypes (`SystemSubtype`). -/
inductive SystemSubtype
  | init
  | compact_boundary
deriving DecidableEq

/-- The fields of `SDKSystemMessage` the session logic reads. -/
structure SDKSystemMessage where
  subtype : SystemSubtype
  session_id : String
deriving DecidableEq

/-- Opaque JSON tool input (`Record<string, unknown>` in the source). -/
abbrev ToolInput := String

/-- Tool result content (`ToolContent` in `src/types/tools.ts`). -/
inductive ToolContent
  | text (text : String)
  | image (data : String) (mimeType : String)
  | resource (uri : String)
deriving DecidableEq

/-- Tool execution result (`ToolResult` in `src/types/tools.ts`);
`isError?: boolean` is an optional field. -/
structure ToolResult where
  content : List ToolContent
  isError : Option Bool := none
deriving DecidableEq

/-- Tool call payload (`ToolCall` in `src/types/tools.ts`). -/
structure ToolCall where
  callId : String
  toolName : String
  input : ToolInput
deriving DecidableEq

/-- A registered tool handler. The source type is
`(input) => ToolResult | Promise<ToolResult>`; a handler that throws is
modelled as `Except.error` carrying the thrown error's message. -/
abbrev ToolHandler := ToolInput → Except String ToolResult

/-- Inbound envelopes (`IncomingMessage` union in `src/types/messages.ts`).
Model-side payloads the client passes through untouched are carried as
uninterpreted strings. -/
inductive IncomingMessage
  | assistant (session_id : String) (body : String)
  | result (subtype : String) (session_id : String) (body : String)
  | system (m : SDKSystemMessage)
  | streamEvent (session_id : String) (body : String)
  | control (p : ControlPayload)
  | error (p : ErrorPayload)
  | pong
  | toolCall (tc : ToolCall)
deriving DecidableEq

/-- The wire `type` discriminant of an inbound envelope. -/
def IncomingMessage.msgType : IncomingMessage → String
  | .assistant _ _ => "assistant"
  | .result _ _ _ => "result"
  | .system _ => "system"
  | .streamEvent _ _ => "stream_event"
  | .control _ => "control"
  | .error _ => "error"
  | .pong => "pong"
  | .toolCall _ => "tool_call"

/-- Type guard `isAssistantMessage` (`message.type === 'assistant'`). -/
def isAssistantMessage (m : IncomingMessage) : Bool := m.msgType == "assistant"

/-- Type guard `isResultMessage` (`message.type === 'result'`). -/
def isResultMessage (m : IncomingMessage) : Bool := m.msgType == "result"

/-- Type guard `isSystemMessage` (`message.type === 'system'`). -/
def isSystemMessage (m : IncomingMessage) : Bool := m.msgType == "system"

/-- Type guard `isStreamEvent` (`message.type === 'stream_event'`). -/
def isStreamEvent (m : IncomingMessage) : Bool := m.msgType == "stream_event"

/-- Type guard `isControlMessage` (`message.type === 'control'`). -/
def isControlMessage (m : IncomingMessage) : Bool := m.msgType == "control"

/-- Type guard `isErrorMessage` (`message.type === 'error'`). -/
def isErrorMessage (m : IncomingMessage) : Bool := m.msgType == "error"

/-- Type guard `isToolCallMessage` (`message.type === 'tool_call'`). -/
def isToolCallMessage (m : IncomingMessage) : Bool := m.msgType == "tool_call"

/-- Outbound envelopes (`OutgoingMessage` union in `src/types/messages.ts`). -/
inductive OutgoingMessage
  | init (payload : String)
  | user (session_id : String) (content : String)
  | control (p : ControlPayload)
  | ping
  | toolResult (callId : String) (result : ToolResult)
deriving DecidableEq

/-- `createUserMessage(content, sessionId)` from `src/types/messages.ts`. -/
def createUserMessage (content : String) (sessionId : String) : OutgoingMessage :=
  OutgoingMessage.user sessionId content

/-- `createControlMessage(action, data?)` from `src/types/messages.ts`. -/
def createControlMessage (action : ControlAction) : OutgoingMessage :=
  OutgoingMessage.control { action := action }

/-- `createToolResultMessage(callId, result)` from `src/types/messages.ts`. -/
def createToolResultMessage (callId : String) (result : ToolResult) : OutgoingMessage :=
  OutgoingMessage.toolResult callId result

/-- The Session's tool-handler table (`toolHandlers: Map<string, handler>`),
modelled as its association list with unique keys; `lookupHandler` is
`Map.prototype.get`. -/
def lookupHandler (hs : List (String × ToolHandler)) (name : String) : Option ToolHandler :=
  match hs with
  | [] => none
  | (n, h) :: rest => if n = name then some h else lookupHandler rest name

/-- `Session.handleToolCall` (`src/client/Session.ts` lines 420-440):
looks up the handler registered for the call's tool name; an unregistered
tool is a logged no-op; a registered handler's success result, or on a
thrown error an error-flagged text payload with the error's message, is
wrapped by `createToolResultMessage` under the call's id and sent on the
transport. The returned list is the sequence of envelopes the session
sends; the function is total, so a handler failure never escapes as an
exception. -/
def handleToolCall (hs : List (String × ToolHandler)) (tc : ToolCall) :
    List OutgoingMessage :=
  match lookupHandler hs tc.toolName with
  | none => []
  | some handler =>
    match handler tc.input with
    | Except.ok result => [createToolResultMessage tc.callId result]
    | Except.error e =>
        [createToolResultMessage tc.callId
          { content := [ToolContent.text e], isError := some true }]

/-- `Session.send` (`src/client/Session.ts` lines 195-207), after
`ensureConnected` has completed: throws a state-conflict error naming the
current state unless the state is `ready`; otherwise moves the state to
`processing` and transmits the user-turn envelope. -/
def sessionSend (st : SessionState) (sessionId message : String) :
    Except String (SessionState × OutgoingMessage) :=
  if st ≠ SessionState.ready then
    Except.error ("Cannot send: session state is " ++ st.jsName)
  else
    Except.ok (SessionState.processing, createUserMessage message sessionId)

/-- What one iteration of the `stream()` loop does after its
`waitForNextMessage` resolves. -/
inductive StreamControl
  | next
  | done
  | thrown (message : String)
deriving DecidableEq

/-- Result of one iteration of the `stream()` loop body. -/
structure StreamStepResult where
  yielded : List IncomingMessage
  sent : List OutgoingMessage
  state : SessionState
  control : StreamControl
deriving DecidableEq

/-- One iteration of the `Session.stream` loop body
(`src/client/Session.ts` lines 231-260) on the message returned by
`waitForNextMessage`, starting from session state `st`:
a `tool_call` is handled internally (state passes through `waiting_tool`
and returns to `processing`) and nothing is yielded; assistant, result,
system and stream-event envelopes are yielded; a result envelope then
restores `ready` and ends the generator; an error envelope restores
`ready` and throws an `Error` carrying the payload's message; anything
else loops. The top-level match on the `tool_call` constructor is the
source's `isToolCallMessage(msg)` test. -/
def streamStep (hs : List (String × ToolHandler)) (st : SessionState)
    (msg : IncomingMessage) : StreamStepResult :=
  match msg with
  | IncomingMessage.toolCall tc =>
      { yielded := [], sent := handleToolCall hs tc,
        state := SessionState.processing, control := StreamControl.next }
  | _ =>
    let yielded :=
      if isAssistantMessage msg || isResultMessage msg
          || isSystemMessage msg || isStreamEvent msg then [msg] else []
    if isResultMessage msg then
      { yielded := yielded, sent := [], state := SessionState.ready,
        control := StreamControl.done }
    else
      match msg with
      | IncomingMessage.error p =>
          { yielded := yielded, sent := [], state := SessionState.ready,
            control := StreamControl.thrown p.message }
      | _ =>
          { yielded := yielded, sent := [], state := st,
            control := StreamControl.next }

/-- `Session.close` (`src/client/Session.ts` lines 272-276): best-effort
`control: close` envelope, transport disconnect, state unconditionally
`completed`; transport rejections are swallowed so close never throws. -/
def sessionClose (_st : SessionState) : SessionState × List OutgoingMessage :=
  (SessionState.completed, [createControlMessage ControlAction.close])

/-- The scan of `ChuckyClient.prompt`'s `for await` loop: the first
streamed message whose `type` is `result`. -/
def firstResultMessage : List IncomingMessage → Option IncomingMessage
  | [] => none
  | m :: rest => if isResultMessage m then some m else firstResultMessage rest

/-- Terminal behavior of the `stream()` generator as observed by a
consumer: it either finishes normally or throws. -/
inductive StreamEnd
  | completed
  | threw (message : String)
deriving DecidableEq

/-- Observable outcome of one `ChuckyClient.prompt` invocation. -/
structure PromptRun where
  result : Except String IncomingMessage
  finalState : SessionState
  closeSent : List OutgoingMessage

/-- `ChuckyClient.prompt` (`src/client/ChuckyClient.ts` lines 173-213),
abstracted over the outcome of `session.send` (`sendOutcome`), the
messages the stream yielded before ending, and how the stream ended.
The body scans the stream for the first `result`-typed message; with none
found it propagates the stream's thrown error, or throws
"No result message received" when the stream ended without one; the
`finally` block closes the session in every branch, recorded in
`finalState` and `closeSent` via `sessionClose`. -/
def clientPrompt (st : SessionState) (sendOutcome : Except String Unit)
    (yielded : List IncomingMessage) (streamEnd : StreamEnd) : PromptRun :=
  let body : Except String IncomingMessage :=
    match sendOutcome with
    | Except.error e => Except.error e
    | Except.ok _ =>
      match firstResultMessage yielded with
      | some r => Except.ok r
      | none =>
        match streamEnd with
        | StreamEnd.threw e => Except.error e
        | StreamEnd.completed => Except.error "No result message received"
  { result := body, finalState := (sessionClose st).1,
    closeSent := (sessionClose st).2 }

/-- C2: for every `tool_call` envelope whose `toolName` has a registered
handler, the session sends exactly one `tool_result` envelope with the
same `callId`: the handler's result on success, an error-flagged text
payload carrying the failure's message on a thrown error; the total
return type shows the handler's exception is never propagated. -/
theorem toolCall_registered_exactly_one_result
    (hs : List (String × ToolHandler)) (tc : ToolCall) (h : ToolHandler)
    (hreg : lookupHandler hs tc.toolName = some h) :
    handleToolCall hs tc =
      [createToolResultMessage tc.callId
        (match h tc.input with
         | Except.ok r => r
         | Except.error e => { content := [ToolContent.text e], isError := some true })] := by
  unfold handleToolCall
  rw [hreg]
  cases hval : h tc.input <;> simp [hval]

/-- Witness for C2 at a concrete registered handler, in both the success
and the failure case. -/
theorem toolCall_registered_exactly_one_result_witness :
    handleToolCall [("add", fun _ => Except.ok ⟨[ToolContent.text "5"], none⟩)]
        ⟨"c1", "add", "2 3"⟩ =
      [OutgoingMessage.toolResult "c1" ⟨[ToolContent.text "5"], none⟩] ∧
    handleToolCall [("boom", fun _ => Except.error "kaput")]
        ⟨"c2", "boom", "x"⟩ =
      [OutgoingMessage.toolResult "c2" ⟨[ToolContent.text "kaput"], some true⟩] :=
  ⟨toolCall_registered_exactly_one_result
      [("add", fun _ => Except.ok ⟨[ToolContent.text "5"], none⟩)]
      ⟨"c1", "add", "2 3"⟩
      (fun _ => Except.ok ⟨[ToolContent.text "5"], none⟩)
      (by simp [lookupHandler]),
   toolCall_registered_exactly_one_result
      [("boom", fun _ => Except.error "kaput")]
      ⟨"c2", "boom", "x"⟩
      (fun _ => Except.error "kaput")
      (by simp [lookupHandler])⟩

/-- C6: after initialization, `Session.send` in any state other than
`ready` fails fast with a state-conflict error naming the current state
and transmits nothing; in state `ready` it moves to `processing` and
transmits the user-turn envelope. -/
theorem send_requires_ready (st : SessionState) (sid msg : String) :
    (st ≠ SessionState.ready →
      sessionSend st sid msg =
        Except.error ("Cannot send: session state is " ++ st.jsName)) ∧
    (st = SessionState.ready →
      sessionSend st sid msg =
        Except.ok (SessionState.processing, OutgoingMessage.user sid msg)) := by
  constructor
  · intro h
    simp [sessionSend, h]
  · intro h
    subst h
    simp [sessionSend, createUserMessage]

/-- Witness for C6 at the concrete states `processing` and `ready`. -/
theorem send_requires_ready_witness :
    sessionSend SessionState.processing "s1" "hello" =
      Except.error ("Cannot send: session state is "
        ++ SessionState.jsName SessionState.processing) ∧
    sessionSend SessionState.ready "s1" "hello" =
      Except.ok (SessionState.processing, OutgoingMessage.user "s1" "hello") :=
  ⟨(send_requires_ready SessionState.processing "s1" "hello").1 (by decide),
   (send_requires_ready SessionState.ready "s1" "hello").2 rfl⟩

/-- C7: a `tool_call` envelope whose tool has no registered handler causes
no `tool_result` to be sent, nothing to be yielded, and leaves the session
state exactly as it was before the call arrived (`processing`), the turn
simply continuing. -/
theorem unregistered_toolCall_noop
    (hs : List (String × ToolHandler)) (tc : ToolCall)
    (hnone : lookupHandler hs tc.toolName = none) :
    streamStep hs SessionState.processing (IncomingMessage.toolCall tc) =
      { yielded := [], sent := [], state := SessionState.processing,
        control := StreamControl.next } := by
  simp [streamStep, handleToolCall, hnone]

/-- Witness for C7 with an empty handler table. -/
theorem unregistered_toolCall_noop_witness :
    streamStep [] SessionState.processing
        (IncomingMessage.toolCall ⟨"c9", "mystery", "in"⟩) =
      { yielded := [], sent := [], state := SessionState.processing,
        control := StreamControl.next } :=
  unregistered_toolCall_noop [] ⟨"c9", "mystery", "in"⟩ rfl

/-- C9: when an error envelope is the next message consumed by
`Session.stream`, the iteration yields nothing, sends nothing, restores
the state to `ready` and throws an `Error` carrying the payload's
message; with the state back at `ready`, a subsequent `Session.send`
succeeds again. -/
theorem error_envelope_resets_and_throws
    (hs : List (String × ToolHandler)) (p : ErrorPayload) (sid msg : String) :
    streamStep hs SessionState.processing (IncomingMessage.error p) =
      { yielded := [], sent := [], state := SessionState.ready,
        control := StreamControl.thrown p.message } ∧
    sessionSend SessionState.ready sid msg =
      Except.ok (SessionState.processing, OutgoingMessage.user sid msg) := by
  constructor
  · rfl
  · rfl

/-- C10: every invocation of `ChuckyClient.prompt` ends with the session
closed: whatever the outcome of `send`, the streamed messages and the
stream's terminal behavior, the `finally` block runs `Session.close`,
leaving the session `completed` with the `control: close` envelope
issued. -/
theorem prompt_always_closes (st : SessionState)
    (sendOutcome : Except String Unit) (yielded : List IncomingMessage)
    (streamEnd : StreamEnd) :
    (clientPrompt st sendOutcome yielded streamEnd).finalState =
      SessionState.completed ∧
    (clientPrompt st sendOutcome yielded streamEnd).closeSent =
      [OutgoingMessage.control { action := ControlAction.close }] := by
  constructor
  · rfl
  · rfl

/-- Send-relevant state of `WebSocketTransport` (the TypeScript source in
the repository): the connection status, the `messageQueue` of envelopes
accepted while not connected, the frames actually written to the socket,
the socket's open readiness (`ws.readyState === 1`), and whether `send`
has triggered a `connect()` attempt. -/
structure WsSendState where
  status : ConnectionStatus
  messageQueue : List OutgoingMessage
  sentFrames : List OutgoingMessage
  socketReady : Bool
  connectCalled : Bool
deriving DecidableEq

/-- `WebSocketTransport.sendImmediate`: writes the serialized frame to the
socket when it is open, otherwise logs and does nothing. -/
def sendImmediate (s : WsSendState) (m : OutgoingMessage) : WsSendState :=
  if s.socketReady then { s with sentFrames := s.sentFrames ++ [m] } else s

/-- `WebSocketTransport.send` from the TypeScript source (the
`src/src/client/Session.ts` compilation unit, lines 767-781): when the
status is not `connected` the envelope is appended to `messageQueue` and a
"queued" line is logged; if the status is `disconnected` a `connect()`
attempt is additionally started (recorded in `connectCalled`); only when
connected is the frame written via `sendImmediate`. This method does not
read `autoReconnect` at all. -/
def wsSend (s : WsSendState) (m : OutgoingMessage) : WsSendState :=
  if s.status ≠ ConnectionStatus.connected then
    let s1 := { s with messageQueue := s.messageQueue ++ [m] }
    if s.status = ConnectionStatus.disconnected then
      { s1 with connectCalled := true }
    else s1
  else sendImmediate s m

/-- C3 fails on the cited source: a send issued in the terminal
`disconnected` state (reconnection disabled — `send` never consults that
flag) is queued in `messageQueue`, not dropped; no frame is written. -/
theorem send_disconnected_is_queued :
    (wsSend ⟨ConnectionStatus.disconnected, [], [], false, false⟩
        (OutgoingMessage.user "s1" "hi")).messageQueue =
      [OutgoingMessage.user "s1" "hi"] ∧
    (wsSend ⟨ConnectionStatus.disconnected, [], [], false, false⟩
        (OutgoingMessage.user "s1" "hi")).messageQueue ≠ [] := by
  constructor
  · rfl
  · decide

/-- C3 amended: an envelope passed to `send` while the transport is not
connected — in particular in the terminal `disconnected` state with
reconnection disabled — is appended to the message queue and logged, no
frame is written to the socket, and when the status is `disconnected` a
connection attempt is triggered. -/
theorem wsSend_not_connected_queues (s : WsSendState) (m : OutgoingMessage)
    (h : s.status ≠ ConnectionStatus.connected) :
    (wsSend s m).messageQueue = s.messageQueue ++ [m] ∧
    (wsSend s m).sentFrames = s.sentFrames ∧
    (s.status = ConnectionStatus.disconnected →
      (wsSend s m).connectCalled = true) := by
  unfold wsSend
  rw [if_pos h]
  by_cases hd : s.status = ConnectionStatus.disconnected
  · simp [hd]
  · simp [hd]

/-- Witness for the amended C3 at a concrete disconnected transport. -/
theorem wsSend_not_connected_queues_witness :
    (wsSend ⟨ConnectionStatus.disconnected, [], [], false, false⟩
        OutgoingMessage.ping).messageQueue = [] ++ [OutgoingMessage.ping] ∧
    (wsSend ⟨ConnectionStatus.disconnected, [], [], false, false⟩
        OutgoingMessage.ping).sentFrames = [] ∧
    ((⟨ConnectionStatus.disconnected, [], [], false, false⟩ :
        WsSendState).status = ConnectionStatus.disconnected →
      (wsSend ⟨ConnectionStatus.disconnected, [], [], false, false⟩
          OutgoingMessage.ping).connectCalled = true) :=
  wsSend_not_connected_queues
    ⟨ConnectionStatus.disconnected, [], [], false, false⟩
    OutgoingMessage.ping (by decide)

/-- Reconnect-relevant configuration of the transport
(`autoReconnect`, `maxReconnectAttempts` — the `BaseTransport`
constructor defaults them to `false` and `0`). -/
structure TransportReconnectConfig where
  autoReconnect : Bool
  maxReconnectAttempts : Nat
deriving DecidableEq

/-- The attempt ceiling the `onclose` handler actually compares against:
JavaScript `this.config.maxReconnectAttempts || 5`, where `||` yields the
right operand when the left is `0` (falsy). -/
def effectiveMaxAttempts (cfg : TransportReconnectConfig) : Nat :=
  if cfg.maxReconnectAttempts = 0 then 5 else cfg.maxReconnectAttempts

/-- Reconnect bookkeeping: the attempt counter and the delays of the
reconnect timers scheduled so far, in order. -/
structure ReconnectState where
  reconnectAttempts : Nat
  scheduledDelays : List Nat
deriving DecidableEq

/-- Fresh transport reconnect state. -/
def ReconnectState.start : ReconnectState :=
  { reconnectAttempts := 0, scheduledDelays := [] }

/-- The delay `scheduleReconnect` computes for a given attempt number:
`Math.min(1000 * Math.pow(2, this.reconnectAttempts - 1), 16000)`. -/
def backoffDelay (attempt : Nat) : Nat := min (1000 * 2 ^ (attempt - 1)) 16000

/-- `WebSocketTransport.scheduleReconnect` (lines 871-886): increments the
attempt counter and schedules a reconnect timer with the exponential
backoff delay for the new attempt number. -/
def scheduleReconnect (s : ReconnectState) : ReconnectState :=
  { reconnectAttempts := s.reconnectAttempts + 1,
    scheduledDelays :=
      s.scheduledDelays ++ [backoffDelay (s.reconnectAttempts + 1)] }

/-- The auto-reconnect decision of the `onclose` handler (lines 716-721):
`if (this.config.autoReconnect && this.reconnectAttempts <
(this.config.maxReconnectAttempts || 5)) this.scheduleReconnect()`. -/
def onUnexpectedClose (cfg : TransportReconnectConfig) (s : ReconnectState) :
    ReconnectState :=
  if cfg.autoReconnect = true ∧ s.reconnectAttempts < effectiveMaxAttempts cfg
  then scheduleReconnect s
  else s

/-- The `onopen` handler resets the attempt counter to zero (line 698). -/
def onOpen (s : ReconnectState) : ReconnectState :=
  { s with reconnectAttempts := 0 }

/-- A run of consecutive failed reconnect rounds: each failed attempt
fires `onclose` again. -/
def iterClose (cfg : TransportReconnectConfig) : Nat → ReconnectState → ReconnectState
  | 0, s => s
  | n + 1, s => iterClose cfg n (onUnexpectedClose cfg s)

/-- Closed form for a run of consecutive unexpected closes with
auto-reconnect enabled: the attempt counter climbs to the effective
ceiling and each scheduled attempt appends exactly one delay. -/
theorem iterClose_spec (cfg : TransportReconnectConfig)
    (hA : cfg.autoReconnect = true) :
    ∀ (n : Nat) (s : ReconnectState),
      (iterClose cfg n s).reconnectAttempts =
        min (s.reconnectAttempts + n)
          (max s.reconnectAttempts (effectiveMaxAttempts cfg)) ∧
      (iterClose cfg n s).scheduledDelays.length =
        s.scheduledDelays.length +
          ((iterClose cfg n s).reconnectAttempts - s.reconnectAttempts) := by
  intro n
  induction n with
  | zero =>
    intro s
    refine ⟨?_, ?_⟩ <;> simp only [iterClose] <;> omega
  | succ n ih =>
    intro s
    by_cases hlt : s.reconnectAttempts < effectiveMaxAttempts cfg
    · have hstep : onUnexpectedClose cfg s = scheduleReconnect s := by
        simp [onUnexpectedClose, hA, hlt]
      have hunf : iterClose cfg (n + 1) s = iterClose cfg n (scheduleReconnect s) := by
        simp [iterClose, hstep]
      obtain ⟨h1, h2⟩ := ih (scheduleReconnect s)
      have hA1 : (scheduleReconnect s).reconnectAttempts = s.reconnectAttempts + 1 := rfl
      have hA2 : (scheduleReconnect s).scheduledDelays.length =
          s.scheduledDelays.length + 1 := by
        simp [scheduleReconnect]
      rw [hA1] at h1
      rw [hA2] at h2
      rw [hunf]
      constructor
      · rw [h1]
        omega
      · rw [h2, h1]
        omega
    · have hstep : onUnexpectedClose cfg s = s := by
        simp [onUnexpectedClose, hlt]
      have hunf : iterClose cfg (n + 1) s = iterClose cfg n s := by
        simp [iterClose, hstep]
      obtain ⟨h1, h2⟩ := ih s
      rw [hunf]
      constructor
      · rw [h1]
        omega
      · exact h2

/-- C4 as stated fails on the code: with the `BaseTransport` default
configuration `maxReconnectAttempts = 0` and auto-reconnect enabled, one
unexpected close schedules a reconnect attempt, so the number of
automatic attempts (1, and up to 5) exceeds the configured ceiling 0 —
the `onclose` guard compares against `maxReconnectAttempts || 5`, not
against the configured value. -/
theorem reconnect_exceeds_zero_ceiling :
    (onUnexpectedClose ⟨true, 0⟩ ReconnectState.start).scheduledDelays.length = 1 ∧
    ¬ (onUnexpectedClose ⟨true, 0⟩ ReconnectState.start).scheduledDelays.length ≤
        (⟨true, 0⟩ : TransportReconnectConfig).maxReconnectAttempts := by
  constructor
  · rfl
  · decide

/-- C4 amended: in a run of consecutive failed reconnects the delays
before attempts 1 through 5 are exactly 1000, 2000, 4000, 8000, 16000 ms
with the doubling clamped at 16000 from attempt 5 on; the number of
automatic attempts never exceeds the effective ceiling
(`maxReconnectAttempts` when nonzero, otherwise 5); and the attempt
counter resets to zero upon any successful connection. -/
theorem reconnect_backoff_spec (cfg : TransportReconnectConfig) (n : Nat)
    (hA : cfg.autoReconnect = true) :
    (iterClose ⟨true, 5⟩ 5 ReconnectState.start).scheduledDelays =
      [1000, 2000, 4000, 8000, 16000] ∧
    (∀ k, 5 ≤ k → backoffDelay k = 16000) ∧
    (iterClose cfg n ReconnectState.start).scheduledDelays.length ≤
      effectiveMaxAttempts cfg ∧
    (∀ s, (onOpen s).reconnectAttempts = 0) := by
  refine ⟨by decide, ?_, ?_, fun s => rfl⟩
  · intro k hk
    have hpow : 2 ^ 4 ≤ 2 ^ (k - 1) :=
      Nat.pow_le_pow_right (by norm_num) (by omega)
    have : 16000 ≤ 1000 * 2 ^ (k - 1) := by
      calc 16000 = 1000 * 2 ^ 4 := by norm_num
        _ ≤ 1000 * 2 ^ (k - 1) := Nat.mul_le_mul_left 1000 hpow
    simpa [backoffDelay] using Nat.min_eq_right this
  · obtain ⟨h1, h2⟩ := iterClose_spec cfg hA n ReconnectState.start
    rw [h2, h1]
    simp [ReconnectState.start]

/-- Witness for the amended C4 at a concrete configuration with a nonzero
ceiling of 3 and a run of 7 consecutive failed reconnects. -/
theorem reconnect_backoff_spec_witness :
    (iterClose ⟨true, 5⟩ 5 ReconnectState.start).scheduledDelays =
      [1000, 2000, 4000, 8000, 16000] ∧
    (∀ k, 5 ≤ k → backoffDelay k = 16000) ∧
    (iterClose ⟨true, 3⟩ 7 ReconnectState.start).scheduledDelays.length ≤
      effectiveMaxAttempts ⟨true, 3⟩ ∧
    (∀ s, (onOpen s).reconnectAttempts = 0) :=
  reconnect_backoff_spec ⟨true, 3⟩ 7 rfl

/-- C8: because the `onclose` guard reads
`this.reconnectAttempts < (this.config.maxReconnectAttempts || 5)`, the
`BaseTransport` default `maxReconnectAttempts = 0` with auto-reconnect
enabled yields an effective ceiling of 5: a run of n unexpected closes
schedules `min n 5` reconnect attempts — configuring the ceiling to 0
does not disable automatic reconnection. -/
theorem zero_ceiling_gives_five_attempts (n : Nat) :
    effectiveMaxAttempts ⟨true, 0⟩ = 5 ∧
    (iterClose ⟨true, 0⟩ n ReconnectState.start).scheduledDelays.length =
      min n 5 := by
  refine ⟨rfl, ?_⟩
  obtain ⟨h1, h2⟩ := iterClose_spec ⟨true, 0⟩ rfl n ReconnectState.start
  rw [h2, h1]
  simp [ReconnectState.start, effectiveMaxAttempts]

/-- Result of a call to `connect()`/`waitForReady()` as observed by the
caller: an immediately resolved promise (already connected), or the
promise of a (possibly in-flight) connection attempt, identified by the
attempt id. -/
inductive ConnectResult
  | immediate
  | attempt (id : Nat)
deriving DecidableEq

/-- Connection-establishment state of `WebSocketTransport`: the status,
the current `readyPromise` (by attempt id) if one was created, how many
underlying WebSocket objects have been constructed, and the next fresh
attempt id. -/
structure ConnState where
  status : ConnectionStatus
  readyPromise : Option Nat
  socketsOpened : Nat
  nextAttemptId : Nat
deriving DecidableEq

/-- The body of `connect()` past the early return: sets status
`connecting`, creates a fresh `readyPromise`, and constructs a new
underlying WebSocket. -/
def startAttempt (s : ConnState) : ConnState × ConnectResult :=
  ({ status := ConnectionStatus.connecting,
     readyPromise := some s.nextAttemptId,
     socketsOpened := s.socketsOpened + 1,
     nextAttemptId := s.nextAttemptId + 1 },
   ConnectResult.attempt s.nextAttemptId)

/-- `WebSocketTransport.connect` (lines 663-746): when already
`connected` or `connecting` it returns `waitForReady()` — which resolves
immediately when connected and otherwise joins the in-flight
`readyPromise` — and only otherwise opens a new socket. In the source a
`connecting` transport always has its `readyPromise` set (the promise is
created directly after `setStatus('connecting')` with no intervening
await); the unreachable `none` branch is completed with a fresh attempt
to keep the function total where the JS would recurse. -/
def wsConnect (s : ConnState) : ConnState × ConnectResult :=
  if s.status = ConnectionStatus.connected then (s, ConnectResult.immediate)
  else if s.status = ConnectionStatus.connecting then
    match s.readyPromise with
    | some pid => (s, ConnectResult.attempt pid)
    | none => startAttempt s
  else startAttempt s

/-- `WebSocketTransport.waitForReady` (lines 801-812): resolved when
connected, the in-flight `readyPromise` when one exists, otherwise a
fresh `connect()`. -/
def wsWaitForReady (s : ConnState) : ConnState × ConnectResult :=
  if s.status = ConnectionStatus.connected then (s, ConnectResult.immediate)
  else
    match s.readyPromise with
    | some pid => (s, ConnectResult.attempt pid)
    | none => wsConnect s

/-- C5: `connect()` is idempotent. A first call from a not-yet-connecting
state opens exactly one underlying socket; a second call while that
attempt is in flight changes nothing and returns the very same attempt's
promise, so both callers await the same outcome; and a call on an
already-connected transport resolves immediately without touching the
state. -/
theorem connect_idempotent (s : ConnState)
    (h1 : s.status ≠ ConnectionStatus.connected)
    (h2 : s.status ≠ ConnectionStatus.connecting) :
    (wsConnect (wsConnect s).1).1 = (wsConnect s).1 ∧
    (wsConnect (wsConnect s).1).2 = (wsConnect s).2 ∧
    (wsConnect s).1.socketsOpened = s.socketsOpened + 1 ∧
    (∀ t : ConnState, t.status = ConnectionStatus.connected →
      wsConnect t = (t, ConnectResult.immediate)) := by
  have hfirst : wsConnect s = startAttempt s := by
    simp [wsConnect, h1, h2]
  refine ⟨?_, ?_, ?_, ?_⟩
  · rw [hfirst]
    rfl
  · rw [hfirst]
    rfl
  · rw [hfirst]
    rfl
  · intro t ht
    simp [wsConnect, ht]

/-- Witness for C5 at a fresh disconnected transport. -/
theorem connect_idempotent_witness :
    (wsConnect (wsConnect ⟨ConnectionStatus.disconnected, none, 0, 0⟩).1).1 =
      (wsConnect ⟨ConnectionStatus.disconnected, none, 0, 0⟩).1 ∧
    (wsConnect (wsConnect ⟨ConnectionStatus.disconnected, none, 0, 0⟩).1).2 =
      (wsConnect ⟨ConnectionStatus.disconnected, none, 0, 0⟩).2 ∧
    (wsConnect ⟨ConnectionStatus.disconnected, none, 0, 0⟩).1.socketsOpened =
      (⟨ConnectionStatus.disconnected, none, 0, 0⟩ : ConnState).socketsOpened + 1 ∧
    (∀ t : ConnState, t.status = ConnectionStatus.connected →
      wsConnect t = (t, ConnectResult.immediate)) :=
  connect_idempotent ⟨ConnectionStatus.disconnected, none, 0, 0⟩
    (by decide) (by decide)

/-- What a queued resolver in `messageResolvers` does with the message it
is handed: a `waitForNextMessage` resolver (`generic`) resolves its
promise with the message; a `waitForReady` resolver (`readyCheck`) merely
runs `checkReady(msg)` — when the message does not match, nothing is
resolved and the message goes nowhere. -/
inductive WaiterKind
  | generic
  | readyCheck
deriving DecidableEq

/-- The messages `checkReady` inside `Session.waitForReady` claims
(resolving on `control: ready`/`session_info` and `system: init`,
rejecting the wait on `error`) versus leaves unclaimed. -/
def checkReadyAccepts : IncomingMessage → Bool
  | IncomingMessage.control p =>
      p.action == ControlAction.ready || p.action == ControlAction.session_info
  | IncomingMessage.system m => m.subtype == SystemSubtype.init
  | IncomingMessage.error _ => true
  | _ => false

/-- The Session's pending-message queue: the ordered `messageBuffer` of
unclaimed envelopes and the ordered `messageResolvers` queue of
unsatisfied waiters, instrumented for the proofs with arrival indices on
envelopes, registration indices on waiters, the `(waiter, envelope)`
matches made so far, and the arrival indices of envelopes handed to a
`readyCheck` resolver that did not match (lost). -/
structure PendingQueue where
  buffer : List (Nat × IncomingMessage)
  waiters : List (Nat × WaiterKind)
  delivered : List (Nat × Nat)
  dropped : List Nat
  nextEnv : Nat
  nextWaiter : Nat

/-- A fresh Session's empty pending queue. -/
def PendingQueue.start : PendingQueue :=
  { buffer := [], waiters := [], delivered := [], dropped := [],
    nextEnv := 0, nextWaiter := 0 }

/-- The resolver dispatch at the end of `Session.handleMessage`
(`src/client/Session.ts` lines 350-357): `messageResolvers.shift()` hands
the incoming envelope to the oldest waiter when one exists — a `generic`
resolver consumes it as its resolution; a `readyCheck` resolver consumes
it, resolving only when `checkReady` matches and losing the envelope
otherwise — and with no waiter the envelope is pushed onto the buffer. -/
def deliverEnvelope (s : PendingQueue) (m : IncomingMessage) : PendingQueue :=
  match s.waiters with
  | [] =>
      { s with buffer := s.buffer ++ [(s.nextEnv, m)], nextEnv := s.nextEnv + 1 }
  | (w, WaiterKind.generic) :: rest =>
      { s with waiters := rest,
               delivered := s.delivered ++ [(w, s.nextEnv)],
               nextEnv := s.nextEnv + 1 }
  | (w, WaiterKind.readyCheck) :: rest =>
      if checkReadyAccepts m then
        { s with waiters := rest,
                 delivered := s.delivered ++ [(w, s.nextEnv)],
                 nextEnv := s.nextEnv + 1 }
      else
        { s with waiters := rest,
                 dropped := s.dropped ++ [s.nextEnv],
                 nextEnv := s.nextEnv + 1 }

/-- `Session.waitForNextMessage` (lines 407-415): takes the oldest
buffered envelope when one exists, otherwise queues a plain resolver. -/
def waitForNextMessageOp (s : PendingQueue) : PendingQueue :=
  match s.buffer with
  | (e, _) :: rest =>
      { s with buffer := rest,
               delivered := s.delivered ++ [(s.nextWaiter, e)],
               nextWaiter := s.nextWaiter + 1 }
  | [] =>
      { s with waiters := s.waiters ++ [(s.nextWaiter, WaiterKind.generic)],
               nextWaiter := s.nextWaiter + 1 }

/-- The buffer scan of `Session.waitForReady` (lines 390-395): the first
buffered envelope `checkReady` accepts, spliced out of the buffer
(later envelopes keep their order), or `none` when no buffered envelope
matches. -/
def extractFirstReady :
    List (Nat × IncomingMessage) → Option (Nat × List (Nat × IncomingMessage))
  | [] => none
  | (e, m) :: rest =>
    if checkReadyAccepts m then some (e, rest)
    else
      match extractFirstReady rest with
      | some (e', rest') => some (e', (e, m) :: rest')
      | none => none

/-- `Session.waitForReady` (lines 362-402): claims the first matching
buffered envelope when there is one — even when older non-matching
envelopes sit in front of it — and otherwise queues a `readyCheck`
resolver (the timeout timer is not part of the queue discipline). -/
def waitForReadyOp (s : PendingQueue) : PendingQueue :=
  match extractFirstReady s.buffer with
  | some (e, rest) =>
      { s with buffer := rest,
               delivered := s.delivered ++ [(s.nextWaiter, e)],
               nextWaiter := s.nextWaiter + 1 }
  | none =>
      { s with waiters := s.waiters ++ [(s.nextWaiter, WaiterKind.readyCheck)],
               nextWaiter := s.nextWaiter + 1 }

/-- The observable requests against the pending-message queue: an inbound
envelope delivered by the transport callback, a `waitForNextMessage`
wait, and a `waitForReady` wait. -/
inductive QueueOp
  | deliver (m : IncomingMessage)
  | waitNext
  | waitReady
deriving DecidableEq

/-- Dispatch one queue operation. -/
def queueStep (s : PendingQueue) : QueueOp → PendingQueue
  | QueueOp.deliver m => deliverEnvelope s m
  | QueueOp.waitNext => waitForNextMessageOp s
  | QueueOp.waitReady => waitForReadyOp s

/-- Run a sequence of queue operations against a fresh Session. -/
def runQueueOps (ops : List QueueOp) : PendingQueue :=
  ops.foldl queueStep PendingQueue.start

/-- The strict-FIFO correlation: the k-th registered waiter is matched
with the k-th delivered envelope, for each k below `m`. -/
def fifoPairs (m : Nat) : List (Nat × Nat) :=
  (List.range m).map (fun i => (i, i))

/-- Consecutive indices `start, start+1, ...` of length `len`. -/
def idxRange (start len : Nat) : List Nat :=
  match len with
  | 0 => []
  | n + 1 => start :: idxRange (start + 1) n

/-- An index range is empty exactly when its length is zero. -/
theorem idxRange_eq_nil_iff {start len : Nat} :
    idxRange start len = [] ↔ len = 0 := by
  cases len with
  | zero => simp [idxRange]
  | succ n => simp [idxRange]

/-- Appending the next index extends an index range by one. -/
theorem idxRange_concat (len : Nat) :
    ∀ start : Nat, idxRange start (len + 1) = idxRange start len ++ [start + len] := by
  induction len with
  | zero => intro start; simp [idxRange]
  | succ n ih =>
    intro start
    have : idxRange start (n + 1 + 1) = start :: idxRange (start + 1) (n + 1) := rfl
    rw [this, ih (start + 1)]
    simp [idxRange]
    omega

/-- Appending the next diagonal pair extends the FIFO correlation by one. -/
theorem fifoPairs_concat (m : Nat) :
    fifoPairs (m + 1) = fifoPairs m ++ [(m, m)] := by
  simp [fifoPairs, List.range_succ]

/-- The FIFO correlation never matches a waiter or an envelope twice. -/
theorem fifoPairs_nodup (m : Nat) : (fifoPairs m).Nodup := by
  refine List.Nodup.map ?_ (List.nodup_range m)
  intro a b hab
  simpa using congrArg Prod.fst hab

/-- Invariant of the pending-message queue under transport deliveries and
`waitForNextMessage` waits: writing `m` for `min nextWaiter nextEnv`, the
matches made so far are exactly the strict-FIFO pairing of the first `m`
waiters with the first `m` envelopes, the buffer holds precisely the
unmatched envelopes in arrival order, the waiter queue holds precisely
the unmatched waiters in registration order and all of them are plain
`waitForNextMessage` resolvers, and no envelope has been lost. -/
def QueueInv (s : PendingQueue) : Prop :=
  s.delivered = fifoPairs (min s.nextWaiter s.nextEnv) ∧
  s.buffer.map Prod.fst =
    idxRange (min s.nextWaiter s.nextEnv)
      (s.nextEnv - min s.nextWaiter s.nextEnv) ∧
  s.waiters.map Prod.fst =
    idxRange (min s.nextWaiter s.nextEnv)
      (s.nextWaiter - min s.nextWaiter s.nextEnv) ∧
  (∀ p ∈ s.waiters, p.2 = WaiterKind.generic) ∧
  s.dropped = []

/-- The fresh queue satisfies the invariant. -/
theorem queueInv_start : QueueInv PendingQueue.start := by
  refine ⟨rfl, rfl, rfl, ?_, rfl⟩
  intro p hp
  simp [PendingQueue.start] at hp

/-- Delivering an envelope preserves the invariant. -/
theorem queueInv_deliver (s : PendingQueue) (m : IncomingMessage)
    (h : QueueInv s) : QueueInv (deliverEnvelope s m) := by
  obtain ⟨hd, hb, hw, hk, hdr⟩ := h
  rcases hws : s.waiters with _ | ⟨⟨w, k⟩, rest⟩
  · -- no waiter: the envelope is appended to the buffer
    have hnw : s.nextWaiter - min s.nextWaiter s.nextEnv = 0 := by
      rw [hws] at hw
      have := idxRange_eq_nil_iff.mp hw.symm
      omega
    have hmin : min s.nextWaiter s.nextEnv = s.nextWaiter := by omega
    have hmin' : min s.nextWaiter (s.nextEnv + 1) = s.nextWaiter := by omega
    refine ⟨?_, ?_, ?_, ?_, ?_⟩ <;>
      simp only [deliverEnvelope, hws]
    · rw [hmin'] at *
      rw [hmin] at hd
      exact hd
    · rw [hmin'] at *
      rw [hmin] at hb
      have harith : s.nextEnv + 1 - s.nextWaiter = (s.nextEnv - s.nextWaiter) + 1 := by
        omega
      have hlast : s.nextWaiter + (s.nextEnv - s.nextWaiter) = s.nextEnv := by
        omega
      rw [harith, idxRange_concat, hlast, List.map_append, hb]
      rfl
    · rw [hmin'] at *
      rw [hws, hmin] at hw
      simpa using hw
    · simp
    · exact hdr
  · -- a waiter exists: the envelope goes to the oldest one
    have hkk : k = WaiterKind.generic := by
      have := hk (w, k) (by rw [hws]; exact List.mem_cons_self _ _)
      simpa using this
    subst hkk
    rw [hws] at hw
    rcases hj : s.nextWaiter - min s.nextWaiter s.nextEnv with _ | j
    · rw [hj] at hw
      simp [idxRange] at hw
    rw [hj] at hw
    have hw' : w = min s.nextWaiter s.nextEnv ∧
        rest.map Prod.fst = idxRange (min s.nextWaiter s.nextEnv + 1) j := by
      have : idxRange (min s.nextWaiter s.nextEnv) (j + 1) =
          min s.nextWaiter s.nextEnv ::
            idxRange (min s.nextWaiter s.nextEnv + 1) j := rfl
      rw [this] at hw
      exact ⟨by simpa using congrArg (fun l => l.headI) hw,
             by simpa using congrArg (fun l => l.tail) hw⟩
    obtain ⟨hwhead, hwtail⟩ := hw'
    have hmE : min s.nextWaiter s.nextEnv = s.nextEnv := by omega
    have hbnil : s.buffer = [] := by
      have : s.nextEnv - min s.nextWaiter s.nextEnv = 0 := by omega
      rw [this] at hb
      simp [idxRange] at hb
      exact hb
    have hmin' : min s.nextWaiter (s.nextEnv + 1) = s.nextEnv + 1 := by omega
    refine ⟨?_, ?_, ?_, ?_, ?_⟩ <;>
      simp only [deliverEnvelope, hws]
    · rw [hmin', hd, hmE, hwhead, hmE, ← fifoPairs_concat]
    · rw [hmin', hbnil]
      have : s.nextEnv + 1 - (s.nextEnv + 1) = 0 := by omega
      rw [this]
      rfl
    · rw [hmin', hwtail, hmE]
      have : s.nextWaiter - (s.nextEnv + 1) = j := by omega
      rw [this]
    · intro p hp
      exact hk p (by rw [hws]; exact List.mem_cons_of_mem _ hp)
    · exact hdr

/-- A `waitForNextMessage` wait preserves the invariant. -/
theorem queueInv_waitNext (s : PendingQueue)
    (h : QueueInv s) : QueueInv (waitForNextMessageOp s) := by
  obtain ⟨hd, hb, hw, hk, hdr⟩ := h
  rcases hbs : s.buffer with _ | ⟨⟨e, msg⟩, rest⟩
  · -- empty buffer: the waiter is queued
    have hne : s.nextEnv - min s.nextWaiter s.nextEnv = 0 := by
      rw [hbs] at hb
      have := idxRange_eq_nil_iff.mp hb.symm
      omega
    have hmin : min s.nextWaiter s.nextEnv = s.nextEnv := by omega
    have hmin' : min (s.nextWaiter + 1) s.nextEnv = s.nextEnv := by omega
    refine ⟨?_, ?_, ?_, ?_, ?_⟩ <;>
      simp only [waitForNextMessageOp, hbs]
    · rw [hmin'] at *
      rw [hmin] at hd
      exact hd
    · rw [hmin'] at *
      rw [hbs, hmin] at hb
      simpa using hb
    · rw [hmin'] at *
      rw [hmin] at hw
      have harith : s.nextWaiter + 1 - s.nextEnv = (s.nextWaiter - s.nextEnv) + 1 := by
        omega
      have hlast : s.nextEnv + (s.nextWaiter - s.nextEnv) = s.nextWaiter := by
        omega
      rw [harith, idxRange_concat, hlast, List.map_append, hw]
      rfl
    · intro p hp
      rw [List.mem_append] at hp
      rcases hp with hp | hp
      · exact hk p hp
      · simp at hp
        rw [hp]
    · exact hdr
  · -- buffered envelope: the waiter takes the oldest one
    rw [hbs] at hb
    rcases hj : s.nextEnv - min s.nextWaiter s.nextEnv with _ | j
    · rw [hj] at hb
      simp [idxRange] at hb
    rw [hj] at hb
    have hb' : e = min s.nextWaiter s.nextEnv ∧
        rest.map Prod.fst = idxRange (min s.nextWaiter s.nextEnv + 1) j := by
      have : idxRange (min s.nextWaiter s.nextEnv) (j + 1) =
          min s.nextWaiter s.nextEnv ::
            idxRange (min s.nextWaiter s.nextEnv + 1) j := rfl
      rw [this] at hb
      exact ⟨by simpa using congrArg (fun l => l.headI) hb,
             by simpa using congrArg (fun l => l.tail) hb⟩
    obtain ⟨hbhead, hbtail⟩ := hb'
    have hmW : min s.nextWaiter s.nextEnv = s.nextWaiter := by omega
    have hwnil : s.waiters = [] := by
      have : s.nextWaiter - min s.nextWaiter s.nextEnv = 0 := by omega
      rw [this] at hw
      simp [idxRange] at hw
      exact hw
    have hmin' : min (s.nextWaiter + 1) s.nextEnv = s.nextWaiter + 1 := by omega
    refine ⟨?_, ?_, ?_, ?_, ?_⟩ <;>
      simp only [waitForNextMessageOp, hbs]
    · rw [hmin', hd, hmW, hbhead, hmW, ← fifoPairs_concat]
    · rw [hmin', hbtail, hmW]
      have : s.nextEnv - (s.nextWaiter + 1) = j := by omega
      rw [this]
    · rw [hmin', hwnil]
      have : s.nextWaiter + 1 - (s.nextWaiter + 1) = 0 := by omega
      rw [this]
      rfl
    · intro p hp
      rw [hwnil] at hp
      simp at hp
    · exact hdr

/-- Every `waitReady`-free operation preserves the invariant. -/
theorem queueInv_step (s : PendingQueue) (op : QueueOp)
    (h : QueueInv s) (hop : op ≠ QueueOp.waitReady) :
    QueueInv (queueStep s op) := by
  cases op with
  | deliver m => exact queueInv_deliver s m h
  | waitNext => exact queueInv_waitNext s h
  | waitReady => exact absurd rfl hop

/-- The invariant holds along any `waitReady`-free run. -/
theorem queueInv_fold (ops : List QueueOp) :
    ∀ s : PendingQueue, QueueInv s →
      (∀ op ∈ ops, op ≠ QueueOp.waitReady) →
      QueueInv (ops.foldl queueStep s) := by
  induction ops with
  | nil => intro s h _; exact h
  | cons op rest ih =>
    intro s h hops
    have h1 : QueueInv (queueStep s op) :=
      queueInv_step s op h (hops op (List.mem_cons_self _ _))
    exact ih (queueStep s op)  h1
      (fun o ho => hops o (List.mem_cons_of_mem _ ho))

/-- C1 fails as stated: the claim also quantifies over `waitForReady`
waits, but `waitForReady` is a filtering waiter. Delivering an assistant
envelope and then calling `waitForReady` leaves the envelope buffer and
the waiter queue both non-empty, violating the at-least-one-empty
invariant; and an assistant envelope delivered while a `waitForReady`
resolver is the oldest waiter is consumed by its `checkReady` wrapper
without being matched or re-buffered — the envelope is lost. -/
theorem pendingQueue_waitReady_violates_invariant :
    (runQueueOps [QueueOp.deliver (IncomingMessage.assistant "s1" "hello"),
        QueueOp.waitReady]).buffer ≠ [] ∧
    (runQueueOps [QueueOp.deliver (IncomingMessage.assistant "s1" "hello"),
        QueueOp.waitReady]).waiters ≠ [] ∧
    (runQueueOps [QueueOp.waitReady,
        QueueOp.deliver (IncomingMessage.assistant "s1" "hello")]).dropped = [0] ∧
    (runQueueOps [QueueOp.waitReady,
        QueueOp.deliver (IncomingMessage.assistant "s1" "hello")]).delivered = [] := by
  refine ⟨?_, ?_, rfl, rfl⟩ <;> decide

/-- C1 amended: restricted to the generic waits — transport deliveries
(`handleMessage`) and `waitForNextMessage` waits — the pending-message
queue keeps the claimed discipline at every instant of every run: at
least one of the waiter queue and the envelope buffer is empty, an
incoming envelope goes to the oldest waiter when one exists and is
appended to the buffer otherwise, a new waiter takes the oldest buffered
envelope when one exists and is queued otherwise, and the matches made
are exactly the strict-FIFO diagonal pairing with no envelope lost
(`dropped` empty) and none delivered twice (`Nodup`). A `waitForReady`
wait does not obey this discipline: it filters, so it can be queued while
non-matching envelopes remain buffered and it loses a non-matching
envelope handed to it. -/
theorem pendingQueue_fifo_invariant (ops pre suf : List QueueOp)
    (hsplit : ops = pre ++ suf)
    (hnr : ∀ op ∈ ops, op ≠ QueueOp.waitReady) :
    ((runQueueOps pre).buffer = [] ∨ (runQueueOps pre).waiters = []) ∧
    (runQueueOps pre).delivered =
      fifoPairs (min (runQueueOps pre).nextWaiter (runQueueOps pre).nextEnv) ∧
    (runQueueOps pre).delivered.Nodup ∧
    (runQueueOps pre).dropped = [] := by
  have hnr' : ∀ op ∈ pre, op ≠ QueueOp.waitReady := by
    intro op hop
    exact hnr op (by rw [hsplit]; exact List.mem_append_left _ hop)
  have hinv : QueueInv (runQueueOps pre) :=
    queueInv_fold pre PendingQueue.start queueInv_start hnr'
  obtain ⟨hd, hb, hw, _hk, hdr⟩ := hinv
  refine ⟨?_, hd, ?_, hdr⟩
  · rcases Nat.le_total (runQueueOps pre).nextWaiter (runQueueOps pre).nextEnv
      with hle | hle
    · right
      have hz : (runQueueOps pre).nextWaiter -
          min (runQueueOps pre).nextWaiter (runQueueOps pre).nextEnv = 0 := by
        omega
      rw [hz] at hw
      simp [idxRange] at hw
      exact hw
    · left
      have hz : (runQueueOps pre).nextEnv -
          min (runQueueOps pre).nextWaiter (runQueueOps pre).nextEnv = 0 := by
        omega
      rw [hz] at hb
      simp [idxRange] at hb
      exact hb
  · rw [hd]
    exact fifoPairs_nodup _

/-- Witness for the amended C1 on a concrete run: two deliveries
interleaved with two `waitForNextMessage` waits. -/
theorem pendingQueue_fifo_invariant_witness :
    ((runQueueOps [QueueOp.deliver IncomingMessage.pong, QueueOp.waitNext,
        QueueOp.waitNext, QueueOp.deliver IncomingMessage.pong]).buffer = [] ∨
      (runQueueOps [QueueOp.deliver IncomingMessage.pong, QueueOp.waitNext,
        QueueOp.waitNext, QueueOp.deliver IncomingMessage.pong]).waiters = []) ∧
    (runQueueOps [QueueOp.deliver IncomingMessage.pong, QueueOp.waitNext,
        QueueOp.waitNext, QueueOp.deliver IncomingMessage.pong]).delivered =
      fifoPairs (min
        (runQueueOps [QueueOp.deliver IncomingMessage.pong, QueueOp.waitNext,
          QueueOp.waitNext, QueueOp.deliver IncomingMessage.pong]).nextWaiter
        (runQueueOps [QueueOp.deliver IncomingMessage.pong, QueueOp.waitNext,
          QueueOp.waitNext, QueueOp.deliver IncomingMessage.pong]).nextEnv) ∧
    (runQueueOps [QueueOp.deliver IncomingMessage.pong, QueueOp.waitNext,
        QueueOp.waitNext, QueueOp.deliver IncomingMessage.pong]).delivered.Nodup ∧
    (runQueueOps [QueueOp.deliver IncomingMessage.pong, QueueOp.waitNext,
        QueueOp.waitNext, QueueOp.deliver IncomingMessage.pong]).dropped = [] :=
  pendingQueue_fifo_invariant
    [QueueOp.deliver IncomingMessage.pong, QueueOp.waitNext,
      QueueOp.waitNext, QueueOp.deliver IncomingMessage.pong]
    [QueueOp.deliver IncomingMessage.pong, QueueOp.waitNext,
      QueueOp.waitNext, QueueOp.deliver IncomingMessage.pong]
    [] (by simp) (by decide)
